import Mathlib

/-!
Shallow embedding of `scripts/security-response-automation.py`: the security
incident response orchestrator (event and action data model, the
verification-requirement policy computed in the action constructors, the
durable one-file-per-record store, and the orchestrator entry points
`handle_security_event` and `verify_action`).

External collaborators (subprocess calls, the container engine, the clock,
uuid generation) are passed in as explicit parameters; the store is an
association list keyed by record id, mirroring the one-JSON-file-per-id
layout under `events/` and `actions/`.
-/

namespace SecurityResponse

/-- Association-list lookup keyed by `String`; models reading the record
file named by its id from a store directory. -/
def lookupRec {α : Type} : List (String × α) → String → Option α
  | [], _ => none
  | p :: t, k => if p.1 = k then some p.2 else lookupRec t k

/-- Overwriting insert keyed by `String`; models writing the record file
named by its id (whole-record overwrite, `json.dump` to `<id>.json`). -/
def upsert {α : Type} : List (String × α) → String → α → List (String × α)
  | [], k, v => [(k, v)]
  | p :: t, k, v => if p.1 = k then (k, v) :: t else p :: upsert t k v

/-- Value of a digit string (model of `int(...)` on validated digits). -/
def digitsVal (l : List Char) : Nat :=
  l.foldl (fun acc c => acc * 10 + (c.toNat - 48)) 0

/-- Split a character list at every occurrence of the separator
(kernel-reducible model of splitting a string on a one-character
separator). -/
def splitOnCharAux (c : Char) : List Char → List Char → List (List Char)
  | [], acc => [acc.reverse]
  | x :: xs, acc =>
    if x = c then acc.reverse :: splitOnCharAux c xs []
    else splitOnCharAux c xs (x :: acc)

def splitOnChar (c : Char) (l : List Char) : List (List Char) :=
  splitOnCharAux c l []

/-- One IPv4 octet: 1-3 digits, no leading zero, value at most 255
(mirrors `ipaddress` octet validation). -/
def parseOctet (l : List Char) : Option Nat :=
  if l.length = 0 || 3 < l.length then none
  else if !(l.all Char.isDigit) then none
  else if 1 < l.length && l.headD 'x' = '0' then none
  else if digitsVal l ≤ 255 then some (digitsVal l) else none

/-- Models `ipaddress.ip_address` on the IPv4 dotted-quad forms this script
and its configuration use; `none` models the `ValueError` raised on
anything unparseable (the configurations modelled here contain no IPv6). -/
def parseIPv4 (s : String) : Option (Nat × Nat × Nat × Nat) :=
  match splitOnChar '.' s.toList with
  | [a, b, c, d] =>
    match parseOctet a, parseOctet b, parseOctet c, parseOctet d with
    | some x, some y, some z, some w => some (x, y, z, w)
    | _, _, _, _ => none
  | _ => none

/-- Numeric value of an IPv4 address. -/
def ipToNat (q : Nat × Nat × Nat × Nat) : Nat :=
  ((q.1 * 256 + q.2.1) * 256 + q.2.2.1) * 256 + q.2.2.2

/-- Models `ipaddress.ip_network` (strict): an optional `/len` suffix,
host bits must be zero; `none` models `ValueError`. Returns the network
number together with the number of host bits. -/
def parseNetwork (s : String) : Option (Nat × Nat) :=
  match splitOnChar '/' s.toList with
  | [addr] => (parseIPv4 (String.mk addr)).map (fun q => (ipToNat q, 0))
  | [addr, p] =>
    match parseIPv4 (String.mk addr) with
    | none => none
    | some q =>
      if p.length = 0 || 2 < p.length || !(p.all Char.isDigit) then none
      else
        let plen := digitsVal p
        if 32 < plen then none
        else if ipToNat q % 2 ^ (32 - plen) ≠ 0 then none
        else some (ipToNat q, 32 - plen)
  | _ => none

/-- Models `ip_obj in ip_network(...)`: the address and the network number
agree above the host bits. -/
def inNetwork (ip : Nat) (net : Nat × Nat) : Bool :=
  decide (ip / 2 ^ net.2 = net.1 / 2 ^ net.2)

/-- The first list is an initial segment of the second. -/
def leadsWith : List Char → List Char → Bool
  | [], _ => true
  | _ :: _, [] => false
  | a :: as, b :: bs => a = b && leadsWith as bs

/-- The needle occurs as a contiguous segment of the haystack. -/
def containsSub (needle : List Char) : List Char → Bool
  | [] => needle.isEmpty
  | x :: t => leadsWith needle (x :: t) || containsSub needle t

/-- Models the Python substring test `needle in hay`. -/
def strContains (hay needle : String) : Bool :=
  containsSub needle.toList hay.toList

/-- One entry of `SecurityEvent.response_actions`, as appended by
`_execute_action` and by the reject branch of `verify_action`. -/
structure LogEntry where
  action_id : String
  name : String
  status : String
  result : Option String
deriving DecidableEq

/-- `SecurityEvent`: details values are the strings the policy engine reads
(`ip_address`, `container_id`, ...); the generated uuid and the clock
reading are constructor parameters. -/
structure SecurityEvent where
  id : String
  event_type : String
  source : String
  details : List (String × String)
  severity : Int
  timestamp : Nat
  status : String
  response_actions : List LogEntry
  verification_status : String
  verification_user : Option String
  verification_time : Option Nat
deriving DecidableEq

/-- `SecurityEvent.__init__` (id and timestamp are the uuid and clock
reading, passed explicitly): severity is stored exactly as supplied. -/
def SecurityEvent.mk0 (id event_type source : String)
    (details : List (String × String)) (severity : Int) (timestamp : Nat) :
    SecurityEvent :=
  { id := id, event_type := event_type, source := source, details := details,
    severity := severity, timestamp := timestamp, status := "new",
    response_actions := [], verification_status := "pending",
    verification_user := none, verification_time := none }

/-- The dictionary produced by `SecurityEvent.to_dict` (the persisted JSON
record). -/
structure EventDict where
  id : String
  event_type : String
  source : String
  details : List (String × String)
  severity : Int
  timestamp : Nat
  status : String
  response_actions : List LogEntry
  verification_status : String
  verification_user : Option String
  verification_time : Option Nat
deriving DecidableEq

/-- `SecurityEvent.to_dict`. -/
def SecurityEvent.to_dict (e : SecurityEvent) : EventDict :=
  { id := e.id, event_type := e.event_type, source := e.source,
    details := e.details, severity := e.severity, timestamp := e.timestamp,
    status := e.status, response_actions := e.response_actions,
    verification_status := e.verification_status,
    verification_user := e.verification_user,
    verification_time := e.verification_time }

/-- `SecurityEvent.from_dict`: builds the event through the constructor and
then overwrites the generated fields from the record, mirroring the Python
classmethod (including the truthiness guard on `verification_time`). -/
def SecurityEvent.from_dict (d : EventDict) : SecurityEvent :=
  let e := SecurityEvent.mk0 "fresh-uuid" d.event_type d.source d.details
    d.severity 0
  { e with
    id := d.id, timestamp := d.timestamp, status := d.status,
    response_actions := d.response_actions,
    verification_status := d.verification_status,
    verification_user := d.verification_user,
    verification_time :=
      match d.verification_time with
      | some t => some t
      | none => e.verification_time }

/-- Variant-specific constructor parameters of the five `ResponseAction`
subclasses. -/
inductive ActionParams where
  | blockIP (ip_address : String) (duration : Int)
  | isolateContainer (container_id : String)
  | rotateCredentials (credential_type : String) (identifier : String)
      (metadata : Option String)
  | forensicCapture (target : String) (capture_types : List String)
  | executePlaybook (playbook_name : String)
      (parameters : List (String × String))
deriving DecidableEq

/-- `ResponseAction` state: the base-class fields plus the variant
parameters; `event_id` stands for the Python object's reference to the
owning event (`self.event.id`). -/
structure ResponseAction where
  id : String
  event_id : String
  name : String
  params : ActionParams
  status : String
  requires_verification : Bool
  verification_status : String
  result : Option String
  start_time : Option Nat
  end_time : Option Nat
  error : Option String
deriving DecidableEq

/-- The dictionary produced by the base-class `ResponseAction.to_dict`
(none of the subclasses overrides it, so the variant parameters are not
serialized). -/
structure ActionDict where
  id : String
  name : String
  status : String
  requires_verification : Bool
  verification_status : String
  result : Option String
  start_time : Option Nat
  end_time : Option Nat
  error : Option String
deriving DecidableEq

/-- `ResponseAction.to_dict`. -/
def ResponseAction.to_dict (a : ResponseAction) : ActionDict :=
  { id := a.id, name := a.name, status := a.status,
    requires_verification := a.requires_verification,
    verification_status := a.verification_status, result := a.result,
    start_time := a.start_time, end_time := a.end_time, error := a.error }

/-- The configuration slices the orchestrator reads (from
`DEFAULT_CONFIG`, possibly overridden by a user file); path- and
notification-typed entries are filesystem or transport concerns outside
this model. -/
structure GeneralConfig where
  dry_run : Bool
deriving DecidableEq

structure NetworkConfig where
  block_duration : Int
  trusted_ips : List String
  critical_hosts : List String
  max_auto_block_score : Int
deriving DecidableEq

structure ContainerConfig where
  auto_isolate_score : Int
  critical_containers : List String
deriving DecidableEq

structure CredentialsConfig where
  auto_rotate_score : Int
deriving DecidableEq

structure ForensicsConfig where
  auto_capture : Bool
deriving DecidableEq

structure PlaybooksConfig where
  auto_execute_score : Int
  available : List String
deriving DecidableEq

structure Config where
  general : GeneralConfig
  network : NetworkConfig
  container : ContainerConfig
  credentials : CredentialsConfig
  forensics : ForensicsConfig
  playbooks : PlaybooksConfig
deriving DecidableEq

/-- The relevant slices of `DEFAULT_CONFIG`. -/
def defaultConfig : Config :=
  { general := { dry_run := false },
    network :=
      { block_duration := 3600, trusted_ips := ["192.168.1.0/24"],
        critical_hosts := ["192.168.1.1", "192.168.1.2"],
        max_auto_block_score := 70 },
    container :=
      { auto_isolate_score := 90,
        critical_containers := ["pihole", "router", "proxy"] },
    credentials := { auto_rotate_score := 0 },
    forensics := { auto_capture := true },
    playbooks :=
      { auto_execute_score := 0,
        available := ["brute_force", "malware_detection",
          "data_exfiltration", "ransomware", "unauthorized_access"] } }

/-- The `for critical in config["network"]["critical_hosts"]` loop of
`BlockIPAction.__init__`: `Except.error` models the `ValueError` raised by
`ipaddress.ip_address(critical)` on an unparseable configured entry,
`Except.ok true` a match with the target address. -/
def checkCriticalHosts (ip : Nat) : List String → Except Unit Bool
  | [] => Except.ok false
  | h :: t =>
    match parseIPv4 h with
    | none => Except.error ()
    | some q => if ipToNat q = ip then Except.ok true else checkCriticalHosts ip t

/-- The `for trusted_net in config["network"]["trusted_ips"]` loop of
`BlockIPAction.__init__`. -/
def checkTrustedNets (ip : Nat) : List String → Except Unit Bool
  | [] => Except.ok false
  | h :: t =>
    match parseNetwork h with
    | none => Except.error ()
    | some net => if inNetwork ip net then Except.ok true else checkTrustedNets ip t

/-- Collapse the outcome of a critical-host or trusted-network scan: both a
raised `ValueError` (caught by the surrounding `except`, which sets
`requires_verification = True`) and a match force verification. -/
def exceptHit : Except Unit Bool → Bool
  | Except.error _ => true
  | Except.ok b => b

/-- The `requires_verification` computation of `BlockIPAction.__init__`:
the threshold comparison, then the critical-host and trusted-network
checks inside a `try` whose `except ValueError` forces verification. A
raised `ValueError` and a positive check both leave the flag `true`; only
when both scans complete negatively does the threshold comparison
survive. -/
def blockIPRequiresVerification (cfg : Config) (severity : Int)
    (ip_address : String) : Bool :=
  match parseIPv4 ip_address with
  | none => true
  | some q =>
    if exceptHit (checkCriticalHosts (ipToNat q) cfg.network.critical_hosts)
    then true
    else if exceptHit (checkTrustedNets (ipToNat q) cfg.network.trusted_ips)
    then true
    else decide (severity ≤ cfg.network.max_auto_block_score)

/-- `BlockIPAction.__init__` (the fresh uuid is the `id` parameter).
`duration or config[...]` is Python truthiness: `none` and `0` both fall
back to the configured default. -/
def BlockIPAction.mk0 (id : String) (e : SecurityEvent) (cfg : Config)
    (ip_address : String) (duration : Option Int) : ResponseAction :=
  let dur :=
    match duration with
    | none => cfg.network.block_duration
    | some d => if d = 0 then cfg.network.block_duration else d
  { id := id, event_id := e.id, name := "BlockIPAction",
    params := ActionParams.blockIP ip_address dur, status := "pending",
    requires_verification := blockIPRequiresVerification cfg e.severity ip_address,
    verification_status := "pending", result := none, start_time := none,
    end_time := none, error := none }

/-- `IsolateContainerAction.__init__`; `resolvedName` is the outcome of
`_get_container_name` (an external container-engine query returning `None`
on failure). The critical-containers check only fires on a truthy name. -/
def IsolateContainerAction.mk0 (id : String) (e : SecurityEvent)
    (cfg : Config) (container_id : String) (resolvedName : Option String) :
    ResponseAction :=
  let rv0 := decide (e.severity ≤ cfg.container.auto_isolate_score)
  let hit :=
    match resolvedName with
    | none => false
    | some nm =>
      if nm = "" then false
      else cfg.container.critical_containers.any (fun c => strContains nm c)
  { id := id, event_id := e.id, name := "IsolateContainerAction",
    params := ActionParams.isolateContainer container_id, status := "pending",
    requires_verification := if hit then true else rv0,
    verification_status := "pending", result := none, start_time := none,
    end_time := none, error := none }

/-- `RotateCredentialsAction.__init__`; `metadata or {}` maps a falsy
metadata value to the empty default. -/
def RotateCredentialsAction.mk0 (id : String) (e : SecurityEvent)
    (cfg : Config) (credential_type identifier : String)
    (metadata : Option String) : ResponseAction :=
  let md :=
    match metadata with
    | none => none
    | some s => if s = "" then none else some s
  { id := id, event_id := e.id, name := "RotateCredentialsAction",
    params := ActionParams.rotateCredentials credential_type identifier md,
    status := "pending",
    requires_verification := decide (e.severity ≤ cfg.credentials.auto_rotate_score),
    verification_status := "pending", result := none, start_time := none,
    end_time := none, error := none }

/-- `ForensicCaptureAction.__init__`; `capture_types or [...]` defaults a
falsy argument to all three capture kinds. Forensic capture never requires
verification. -/
def ForensicCaptureAction.mk0 (id : String) (e : SecurityEvent)
    (cfg : Config) (target : String) (capture_types : Option (List String)) :
    ResponseAction :=
  let ct :=
    match capture_types with
    | none => ["network", "process", "filesystem"]
    | some [] => ["network", "process", "filesystem"]
    | some l => l
  { id := id, event_id := e.id, name := "ForensicCaptureAction",
    params := ActionParams.forensicCapture target ct, status := "pending",
    requires_verification := false, verification_status := "pending",
    result := none, start_time := none, end_time := none, error := none }

/-- `ExecutePlaybookAction.__init__`. -/
def ExecutePlaybookAction.mk0 (id : String) (e : SecurityEvent)
    (cfg : Config) (playbook_name : String)
    (parameters : List (String × String)) : ResponseAction :=
  { id := id, event_id := e.id, name := "ExecutePlaybookAction",
    params := ActionParams.executePlaybook playbook_name parameters,
    status := "pending",
    requires_verification := decide (e.severity ≤ cfg.playbooks.auto_execute_score),
    verification_status := "pending", result := none, start_time := none,
    end_time := none, error := none }

/-- Outcome of a variant's `_execute_impl` (an external side-effecting
call): a returned result string, or a raised exception message. -/
inductive ExecOutcome where
  | ok (result : String)
  | exn (msg : String)
deriving DecidableEq

/-- The opening lines of `ResponseAction.execute`: record the start time
and move to `in_progress`. -/
def executeStart (t0 : Nat) (a : ResponseAction) : ResponseAction :=
  { a with start_time := some t0, status := "in_progress" }

/-- `ResponseAction.execute`: in dry-run mode the implementation is
skipped with a synthetic result; otherwise the `_execute_impl` outcome
either completes the action or (via the `except` clause) fails it with the
error recorded. The `finally` clause stamps the end time. Returns the
updated action and the boolean the method returns. -/
def ResponseAction.execute (dry_run : Bool) (impl : ExecOutcome)
    (t0 t1 : Nat) (a : ResponseAction) : ResponseAction × Bool :=
  let a1 := executeStart t0 a
  if dry_run then
    ({ a1 with
       result := some "Skipped (dry run mode)", status := "completed",
       end_time := some t1 }, true)
  else
    match impl with
    | ExecOutcome.ok r =>
      ({ a1 with
         result := some r, status := "completed",
         end_time := some t1 }, true)
    | ExecOutcome.exn m =>
      ({ a1 with
         error := some m, status := "failed",
         end_time := some t1 }, false)

/-- The record `_save_action` writes: the base-class dictionary plus the
owning event id. -/
structure StoredAction where
  action : ActionDict
  event_id : String
deriving DecidableEq

/-- The durable store: the `events/` and `actions/` directories, one
record per id. -/
structure Store where
  events : List (String × EventDict)
  actions : List (String × StoredAction)
deriving DecidableEq

def emptyStore : Store := { events := [], actions := [] }

def lookupEvent (st : Store) (id : String) : Option EventDict :=
  lookupRec st.events id

def lookupAction (st : Store) (id : String) : Option StoredAction :=
  lookupRec st.actions id

/-- `_save_event`. -/
def putEvent (st : Store) (e : SecurityEvent) : Store :=
  { st with events := upsert st.events e.id e.to_dict }

def storedOf (a : ResponseAction) : StoredAction :=
  { action := a.to_dict, event_id := a.event_id }

/-- `_save_action`. -/
def putAction (st : Store) (a : ResponseAction) : Store :=
  { st with actions := upsert st.actions a.id (storedOf a) }

/-- `SecurityResponseManager._execute_action`: run the action, save its
updated state, append the outcome to the owning event's
`response_actions`, save the event, and return the execute result
(notification dispatch has no store effect). -/
def executeAction (cfg : Config) (impl : ExecOutcome) (t0 t1 : Nat)
    (st : Store) (e : SecurityEvent) (a : ResponseAction) :
    Store × SecurityEvent × Bool :=
  let er := ResponseAction.execute cfg.general.dry_run impl t0 t1 a
  let a2 := er.1
  let st2 := putAction st a2
  let e2 := { e with
    response_actions := e.response_actions ++
      [{ action_id := a2.id, name := a2.name, status := a2.status,
         result := a2.result }] }
  let st3 := putEvent st2 e2
  (st3, e2, er.2)

/-- `details.get(k)` filtered through Python truthiness (`if value:`):
a missing key and the empty string are both falsy. -/
def getTruthy (d : List (String × String)) (k : String) : Option String :=
  match lookupRec d k with
  | some s => if s = "" then none else some s
  | none => none

/-- `SecurityResponseManager._determine_response_actions`, before the
fresh uuids are drawn: each element awaits its id. `resolveName` is the
external `_get_container_name` query used by the isolate constructor. -/
def determineRaw (cfg : Config) (e : SecurityEvent)
    (resolveName : String → Option String) : List (String → ResponseAction) :=
  let base : List (String → ResponseAction) :=
    if e.event_type = "suspicious_ip" then
      match getTruthy e.details "ip_address" with
      | some ip =>
        [fun i => BlockIPAction.mk0 i e cfg ip none] ++
        (if cfg.forensics.auto_capture then
          [fun i => ForensicCaptureAction.mk0 i e cfg ip (some ["network"])]
        else [])
      | none => []
    else if e.event_type = "compromised_container" then
      match getTruthy e.details "container_id" with
      | some cid =>
        [fun i => IsolateContainerAction.mk0 i e cfg cid (resolveName cid)] ++
        (if cfg.forensics.auto_capture then
          [fun i => ForensicCaptureAction.mk0 i e cfg ("container:" ++ cid)
            (some ["network", "process", "filesystem"])]
        else [])
      | none => []
    else if e.event_type = "credential_compromise" then
      match getTruthy e.details "credential_type",
        getTruthy e.details "identifier" with
      | some ct, some idf =>
        [fun i => RotateCredentialsAction.mk0 i e cfg ct idf
          (lookupRec e.details "metadata")]
      | _, _ => []
    else if e.event_type = "malware_detection" then
      (if cfg.playbooks.available.contains "malware_detection" then
        [fun i => ExecutePlaybookAction.mk0 i e cfg "malware_detection" e.details]
      else []) ++
      (if cfg.forensics.auto_capture then
        let target :=
          match getTruthy e.details "target" with
          | some t => t
          | none => e.source
        [fun i => ForensicCaptureAction.mk0 i e cfg target
          (some ["process", "filesystem"])]
      else [])
    else if e.event_type = "unauthorized_access" then
      (if cfg.playbooks.available.contains "unauthorized_access" then
        [fun i => ExecutePlaybookAction.mk0 i e cfg "unauthorized_access" e.details]
      else []) ++
      (match getTruthy e.details "ip_address" with
      | some ip => [fun i => BlockIPAction.mk0 i e cfg ip none]
      | none => [])
    else if e.event_type = "data_exfiltration" then
      (if cfg.playbooks.available.contains "data_exfiltration" then
        [fun i => ExecutePlaybookAction.mk0 i e cfg "data_exfiltration" e.details]
      else []) ++
      (match getTruthy e.details "destination_ip" with
      | some ip => [fun i => BlockIPAction.mk0 i e cfg ip none]
      | none => [])
    else []
  base ++
    (match getTruthy e.details "suggested_playbook" with
    | some pb =>
      if cfg.playbooks.available.contains pb then
        [fun i => ExecutePlaybookAction.mk0 i e cfg pb e.details]
      else []
    | none => [])

/-- Draw the fresh uuid for each pending constructor in order. -/
def assignIds (ids : Nat → String) (k : Nat) :
    List (String → ResponseAction) → List ResponseAction
  | [] => []
  | f :: t => f (ids k) :: assignIds ids (k + 1) t

/-- `_determine_response_actions` with uuids drawn from `ids`. -/
def determineResponseActions (cfg : Config) (e : SecurityEvent)
    (ids : Nat → String) (resolveName : String → Option String) :
    List ResponseAction :=
  assignIds ids 0 (determineRaw cfg e resolveName)

/-- The per-action loop of `handle_security_event`: an action that does
not require verification is executed (and saved terminal) on the spot; one
that does is saved pending and a verification notification is emitted
(no store effect). `impls` supplies the `_execute_impl` outcome for the
action at each loop position. -/
def processActions (cfg : Config) (impls : Nat → ExecOutcome) (t0 t1 : Nat) :
    List ResponseAction → Nat → Store → SecurityEvent → Store × SecurityEvent
  | [], _, st, e => (st, e)
  | a :: rest, k, st, e =>
    if a.requires_verification then
      processActions cfg impls t0 t1 rest (k + 1) (putAction st a) e
    else
      let r := executeAction cfg (impls k) t0 t1 st e a
      processActions cfg impls t0 t1 rest (k + 1) r.1 r.2.1

/-- `SecurityResponseManager.handle_security_event`: save the event,
notify, derive the response actions, process each in order, and return the
event id. -/
def handleSecurityEvent (cfg : Config) (impls : Nat → ExecOutcome)
    (t0 t1 : Nat) (ids : Nat → String)
    (resolveName : String → Option String) (st : Store)
    (e : SecurityEvent) : Store × String :=
  let st1 := putEvent st e
  let acts := determineResponseActions cfg e ids resolveName
  let r := processActions cfg impls t0 t1 acts 0 st1 e
  (r.1, e.id)

/-- Outcome of reconstructing `action_class(event, self.config,
"placeholder")` inside `verify_action`. -/
inductive Reconstruct where
  | unknown
  | typeError
  | ok (a : ResponseAction)

/-- The dynamic re-dispatch of `verify_action`: `globals().get(name)`
followed by `action_class(event, self.config, "placeholder")`. The
`RotateCredentialsAction` constructor takes two required parameters after
the config, so the single `"placeholder"` argument raises a `TypeError`,
which the surrounding `except (JSONDecodeError, KeyError, ValueError)`
does not catch. Names that are not action classes yield `unknown`
(`globals().get` returns `None`). -/
def reconstructAction (e : SecurityEvent) (cfg : Config)
    (resolveName : String → Option String) (name : String) : Reconstruct :=
  if name = "BlockIPAction" then
    Reconstruct.ok (BlockIPAction.mk0 "fresh-uuid" e cfg "placeholder" none)
  else if name = "IsolateContainerAction" then
    Reconstruct.ok (IsolateContainerAction.mk0 "fresh-uuid" e cfg
      "placeholder" (resolveName "placeholder"))
  else if name = "RotateCredentialsAction" then Reconstruct.typeError
  else if name = "ForensicCaptureAction" then
    Reconstruct.ok (ForensicCaptureAction.mk0 "fresh-uuid" e cfg
      "placeholder" none)
  else if name = "ExecutePlaybookAction" then
    Reconstruct.ok (ExecutePlaybookAction.mk0 "fresh-uuid" e cfg
      "placeholder" [])
  else Reconstruct.unknown

/-- How a call of `verify_action` ends: the returned boolean, or an
uncaught exception propagating out of the method. -/
inductive VerifyOutcome where
  | crashed (msg : String)
  | returned (b : Bool)
deriving DecidableEq

/-- `SecurityResponseManager.verify_action`: load the action record and
its event, re-dispatch the action class by its stored name, overwrite id,
status and verification status, then either run `_execute_action` (on
approve) or mark rejected, append the rejection entry to the event's log
and save both (on reject). -/
def verifyAction (cfg : Config) (resolveName : String → Option String)
    (impl : ExecOutcome) (t0 t1 : Nat) (st : Store) (action_id : String)
    (approve : Bool) (user : String) : Store × VerifyOutcome :=
  match lookupAction st action_id with
  | none => (st, VerifyOutcome.returned false)
  | some rec0 =>
    match lookupEvent st rec0.event_id with
    | none => (st, VerifyOutcome.returned false)
    | some ed =>
      let event := SecurityEvent.from_dict ed
      match reconstructAction event cfg resolveName rec0.action.name with
      | Reconstruct.unknown => (st, VerifyOutcome.returned false)
      | Reconstruct.typeError => (st, VerifyOutcome.crashed "TypeError")
      | Reconstruct.ok a0 =>
        let a1 := { a0 with
          id := action_id, status := rec0.action.status,
          verification_status := if approve then "approved" else "rejected" }
        if approve then
          let r := executeAction cfg impl t0 t1 st event a1
          (r.1, VerifyOutcome.returned r.2.2)
        else
          let a2 := { a1 with status := "rejected" }
          let st2 := putAction st a2
          let event2 := { event with
            response_actions := event.response_actions ++
              [{ action_id := a2.id, name := a2.name, status := a2.status,
                 result := some "Action rejected by user" }] }
          let st3 := putEvent st2 event2
          (st3, VerifyOutcome.returned true)

/-- Spec-side reading of one critical-host entry: it forces verification
when it matches the target or is itself unparseable. -/
def criticalHostHit (ip : Nat) (h : String) : Bool :=
  match parseIPv4 h with
  | none => true
  | some q => decide (ipToNat q = ip)

/-- Spec-side reading of one trusted-network entry. -/
def trustedNetHit (ip : Nat) (t : String) : Bool :=
  match parseNetwork t with
  | none => true
  | some net => inNetwork ip net

/-- Spec-side protected/unparseable override for `BlockIPAction`: the
target fails to parse, or some configured critical host or trusted range
matches it (or itself fails to parse). -/
def blockOverride (cfg : Config) (ip_address : String) : Bool :=
  match parseIPv4 ip_address with
  | none => true
  | some q =>
    cfg.network.critical_hosts.any (criticalHostHit (ipToNat q)) ||
      cfg.network.trusted_ips.any (trustedNetHit (ipToNat q))

/-- Spec-side protected override for `IsolateContainerAction`: the
resolved container name is truthy and contains a configured critical
container name as a substring. -/
def isolateProtected (cfg : Config) (resolvedName : Option String) : Bool :=
  match resolvedName with
  | none => false
  | some nm =>
    if nm = "" then false
    else cfg.container.critical_containers.any (fun c => strContains nm c)

/-- The record each action ends up with in the store after the
`handle_security_event` loop: saved as-is when verification is required,
saved post-execution otherwise. -/
def expectedRecord (cfg : Config) (impl : ExecOutcome) (t0 t1 : Nat)
    (a : ResponseAction) : StoredAction :=
  if a.requires_verification then storedOf a
  else storedOf (ResponseAction.execute cfg.general.dry_run impl t0 t1 a).1

/-- The store invariant of claim C6: no persisted action record combines
`requires_verification = false` with `pending` status. -/
def autoNotPending (st : Store) : Prop :=
  ∀ p ∈ st.actions, p.2.action.requires_verification = false →
    p.2.action.status ≠ "pending"

/-- The event kinds `_determine_response_actions` maps to actions. -/
def knownEventTypes : List String :=
  ["suspicious_ip", "compromised_container", "credential_compromise",
   "malware_detection", "unauthorized_access", "data_exfiltration"]

/- ### Concrete instances used in the closed theorems -/

/-- A suspicious-ip event as persisted by `handle_security_event`. -/
def evBlock : SecurityEvent :=
  SecurityEvent.mk0 "ev-blk" "suspicious_ip" "firewall"
    [("ip_address", "203.0.113.9")] 80 0

/-- An already-completed `BlockIPAction` record on disk. -/
def completedBlockRecord : StoredAction :=
  { action :=
      { id := "act-done", name := "BlockIPAction", status := "completed",
        requires_verification := true, verification_status := "pending",
        result := some "IP 203.0.113.9 blocked", start_time := some 1,
        end_time := some 2, error := none },
    event_id := "ev-blk" }

def storeWithCompleted : Store :=
  { events := [("ev-blk", evBlock.to_dict)],
    actions := [("act-done", completedBlockRecord)] }

/-- A pending `RotateCredentialsAction` record on disk (the rotation
parameters live only in the Python object; the persisted dictionary has no
field for them). -/
def pendingRotateRecord : StoredAction :=
  { action :=
      { id := "act-rot", name := "RotateCredentialsAction",
        status := "pending", requires_verification := true,
        verification_status := "pending", result := none,
        start_time := none, end_time := none, error := none },
    event_id := "ev-blk" }

def storeWithPendingRotate : Store :=
  { events := [("ev-blk", evBlock.to_dict)],
    actions := [("act-rot", pendingRotateRecord)] }

/-- A pending `BlockIPAction` record on disk, awaiting verification. -/
def pendingBlockRecord : StoredAction :=
  { action :=
      { id := "act-pend", name := "BlockIPAction", status := "pending",
        requires_verification := true, verification_status := "pending",
        result := none, start_time := none, end_time := none,
        error := none },
    event_id := "ev-blk" }

def storeWithPendingBlock : Store :=
  { events := [("ev-blk", evBlock.to_dict)],
    actions := [("act-pend", pendingBlockRecord)] }

/-- The event and action of the serialization round-trip scenario. -/
def c5Event : SecurityEvent :=
  SecurityEvent.mk0 "ev5" "suspicious_ip" "firewall"
    [("ip_address", "203.0.113.42")] 80 0

def c5Action : ResponseAction :=
  BlockIPAction.mk0 "act5" c5Event defaultConfig "203.0.113.42" none

/-- Two forensic captures derived from one event; both auto-execute. -/
def c7Fail : ResponseAction :=
  ForensicCaptureAction.mk0 "act-f1" evBlock defaultConfig "203.0.113.7"
    (some ["network"])

def c7Sibling : ResponseAction :=
  ForensicCaptureAction.mk0 "act-f2" evBlock defaultConfig "203.0.113.8"
    (some ["process"])

/- ### Store lemmas -/

theorem lookupRec_upsert_self {α : Type} (l : List (String × α)) (k : String)
    (v : α) : lookupRec (upsert l k v) k = some v := by
  induction l with
  | nil => simp [upsert, lookupRec]
  | cons p t ih =>
    by_cases hp : p.1 = k
    · rw [upsert, if_pos hp]
      simp [lookupRec]
    · rw [upsert, if_neg hp]
      simp only [lookupRec, if_neg hp]
      exact ih

theorem lookupRec_upsert_other {α : Type} (l : List (String × α))
    (k k' : String) (v : α) (h : k' ≠ k) :
    lookupRec (upsert l k v) k' = lookupRec l k' := by
  induction l with
  | nil =>
    rw [upsert]
    simp only [lookupRec, if_neg (Ne.symm h)]
  | cons p t ih =>
    by_cases hp : p.1 = k
    · rw [upsert, if_pos hp]
      simp only [lookupRec, if_neg (Ne.symm h),
        if_neg (show ¬ p.1 = k' by rw [hp]; exact Ne.symm h)]
    · by_cases hq : p.1 = k'
      · rw [upsert, if_neg hp]
        simp only [lookupRec, if_pos hq]
      · rw [upsert, if_neg hp]
        simp only [lookupRec, if_neg hq]
        exact ih

theorem mem_upsert {α : Type} (l : List (String × α)) (k : String) (v : α) :
    ∀ p ∈ upsert l k v, p ∈ l ∨ p = (k, v) := by
  induction l with
  | nil => intro p hp; simp [upsert] at hp; right; exact hp
  | cons q t ih =>
    intro p hp
    rw [upsert] at hp
    by_cases hk : q.1 = k
    · rw [if_pos hk] at hp
      rcases List.mem_cons.mp hp with h1 | h2
      · right; exact h1
      · left; exact List.mem_cons_of_mem q h2
    · rw [if_neg hk] at hp
      rcases List.mem_cons.mp hp with h1 | h2
      · left; rw [h1]; exact List.mem_cons_self q t
      · rcases ih p h2 with h3 | h4
        · left; exact List.mem_cons_of_mem q h3
        · right; exact h4

theorem lookupAction_putEvent (st : Store) (e : SecurityEvent) (id : String) :
    lookupAction (putEvent st e) id = lookupAction st id := rfl

theorem lookupAction_putAction_self (st : Store) (a : ResponseAction) :
    lookupAction (putAction st a) a.id = some (storedOf a) :=
  lookupRec_upsert_self st.actions a.id (storedOf a)

theorem lookupAction_putAction_other (st : Store) (a : ResponseAction)
    (tid : String) (h : a.id ≠ tid) :
    lookupAction (putAction st a) tid = lookupAction st tid :=
  lookupRec_upsert_other st.actions a.id tid (storedOf a) (fun hc => h hc.symm)

theorem lookupEvent_putEvent_self (st : Store) (e : SecurityEvent) :
    lookupEvent (putEvent st e) e.id = some e.to_dict :=
  lookupRec_upsert_self st.events e.id e.to_dict

/- ### Execute lemmas -/

theorem execute_id (dry : Bool) (impl : ExecOutcome) (t0 t1 : Nat)
    (a : ResponseAction) :
    (ResponseAction.execute dry impl t0 t1 a).1.id = a.id := by
  cases dry <;> cases impl <;> rfl

theorem execute_rv (dry : Bool) (impl : ExecOutcome) (t0 t1 : Nat)
    (a : ResponseAction) :
    (ResponseAction.execute dry impl t0 t1 a).1.requires_verification =
      a.requires_verification := by
  cases dry <;> cases impl <;> rfl

theorem execute_status (dry : Bool) (impl : ExecOutcome) (t0 t1 : Nat)
    (a : ResponseAction) :
    (ResponseAction.execute dry impl t0 t1 a).1.status = "completed" ∨
    (ResponseAction.execute dry impl t0 t1 a).1.status = "failed" := by
  cases dry <;> cases impl <;>
    first
    | exact Or.inl rfl
    | exact Or.inr rfl

/- ### Loop unfolding lemmas -/

theorem processActions_nil (cfg : Config) (impls : Nat → ExecOutcome)
    (t0 t1 k : Nat) (st : Store) (e : SecurityEvent) :
    processActions cfg impls t0 t1 [] k st e = (st, e) := rfl

theorem processActions_cons_true (cfg : Config) (impls : Nat → ExecOutcome)
    (t0 t1 : Nat) (a : ResponseAction) (rest : List ResponseAction) (k : Nat)
    (st : Store) (e : SecurityEvent) (h : a.requires_verification = true) :
    processActions cfg impls t0 t1 (a :: rest) k st e =
      processActions cfg impls t0 t1 rest (k + 1) (putAction st a) e := by
  rw [processActions, if_pos h]

theorem processActions_cons_false (cfg : Config) (impls : Nat → ExecOutcome)
    (t0 t1 : Nat) (a : ResponseAction) (rest : List ResponseAction) (k : Nat)
    (st : Store) (e : SecurityEvent) (h : a.requires_verification = false) :
    processActions cfg impls t0 t1 (a :: rest) k st e =
      processActions cfg impls t0 t1 rest (k + 1)
        (executeAction cfg (impls k) t0 t1 st e a).1
        (executeAction cfg (impls k) t0 t1 st e a).2.1 := by
  rw [processActions, if_neg (by rw [h]; exact Bool.false_ne_true)]

theorem executeAction_store (cfg : Config) (impl : ExecOutcome) (t0 t1 : Nat)
    (st : Store) (e : SecurityEvent) (a : ResponseAction) :
    (executeAction cfg impl t0 t1 st e a).1 =
      putEvent
        (putAction st (ResponseAction.execute cfg.general.dry_run impl t0 t1 a).1)
        (executeAction cfg impl t0 t1 st e a).2.1 := rfl

/- ### Policy refinement lemmas -/

theorem checkCriticalHosts_any (ip : Nat) (l : List String) :
    exceptHit (checkCriticalHosts ip l) = l.any (criticalHostHit ip) := by
  induction l with
  | nil => rfl
  | cons h t ih =>
    rw [List.any_cons, checkCriticalHosts]
    cases hp : parseIPv4 h with
    | none =>
      show exceptHit (Except.error ()) =
        (criticalHostHit ip h || t.any (criticalHostHit ip))
      rw [show criticalHostHit ip h = true by rw [criticalHostHit, hp]]
      rfl
    | some q =>
      show exceptHit
          (if ipToNat q = ip then Except.ok true else checkCriticalHosts ip t) =
        (criticalHostHit ip h || t.any (criticalHostHit ip))
      rw [show criticalHostHit ip h = decide (ipToNat q = ip) by
        rw [criticalHostHit, hp]]
      by_cases he : ipToNat q = ip
      · rw [if_pos he, decide_eq_true he]; rfl
      · rw [if_neg he, decide_eq_false he, Bool.false_or]; exact ih

theorem checkTrustedNets_any (ip : Nat) (l : List String) :
    exceptHit (checkTrustedNets ip l) = l.any (trustedNetHit ip) := by
  induction l with
  | nil => rfl
  | cons h t ih =>
    rw [List.any_cons, checkTrustedNets]
    cases hp : parseNetwork h with
    | none =>
      show exceptHit (Except.error ()) =
        (trustedNetHit ip h || t.any (trustedNetHit ip))
      rw [show trustedNetHit ip h = true by rw [trustedNetHit, hp]]
      rfl
    | some net =>
      show exceptHit
          (if inNetwork ip net then Except.ok true else checkTrustedNets ip t) =
        (trustedNetHit ip h || t.any (trustedNetHit ip))
      rw [show trustedNetHit ip h = inNetwork ip net by
        rw [trustedNetHit, hp]]
      cases he : inNetwork ip net with
      | true => rfl
      | false =>
        rw [if_neg Bool.false_ne_true, Bool.false_or]
        exact ih

theorem blockIPRequiresVerification_eq (cfg : Config) (sev : Int)
    (ip : String) :
    blockIPRequiresVerification cfg sev ip =
      (decide (sev ≤ cfg.network.max_auto_block_score) ||
        blockOverride cfg ip) := by
  cases hp : parseIPv4 ip with
  | none =>
    rw [blockIPRequiresVerification, blockOverride, hp]
    show true = (decide (sev ≤ cfg.network.max_auto_block_score) || true)
    rw [Bool.or_true]
  | some q =>
    rw [blockIPRequiresVerification, blockOverride, hp]
    show (if exceptHit (checkCriticalHosts (ipToNat q) cfg.network.critical_hosts)
        then true
        else if exceptHit (checkTrustedNets (ipToNat q) cfg.network.trusted_ips)
        then true
        else decide (sev ≤ cfg.network.max_auto_block_score)) =
      (decide (sev ≤ cfg.network.max_auto_block_score) ||
        (cfg.network.critical_hosts.any (criticalHostHit (ipToNat q)) ||
          cfg.network.trusted_ips.any (trustedNetHit (ipToNat q))))
    rw [checkCriticalHosts_any, checkTrustedNets_any]
    rcases Bool.eq_false_or_eq_true
        (cfg.network.critical_hosts.any (criticalHostHit (ipToNat q))) with h1 | h1 <;>
      rcases Bool.eq_false_or_eq_true
        (cfg.network.trusted_ips.any (trustedNetHit (ipToNat q))) with h2 | h2 <;>
      rw [h1, h2] <;> simp

/- ### Orchestrator loop lemmas -/

theorem processActions_frozen (cfg : Config) (impls : Nat → ExecOutcome)
    (t0 t1 : Nat) :
    ∀ (acts : List ResponseAction) (k : Nat) (st : Store) (e : SecurityEvent)
      (tid : String), (∀ a ∈ acts, a.id ≠ tid) →
      lookupAction (processActions cfg impls t0 t1 acts k st e).1 tid =
        lookupAction st tid := by
  intro acts
  induction acts with
  | nil => intro k st e tid _; rfl
  | cons a rest ih =>
    intro k st e tid h
    have ha : a.id ≠ tid := h a (List.mem_cons_self a rest)
    have hrest : ∀ b ∈ rest, b.id ≠ tid :=
      fun b hb => h b (List.mem_cons_of_mem a hb)
    cases hrv : a.requires_verification with
    | true =>
      rw [processActions_cons_true cfg impls t0 t1 a rest k st e hrv]
      rw [ih (k + 1) (putAction st a) e tid hrest]
      exact lookupAction_putAction_other st a tid ha
    | false =>
      rw [processActions_cons_false cfg impls t0 t1 a rest k st e hrv]
      rw [ih (k + 1) _ _ tid hrest]
      rw [executeAction_store, lookupAction_putEvent]
      exact lookupAction_putAction_other st _ tid
        (by rw [execute_id]; exact ha)

theorem processActions_at (cfg : Config) (impls : Nat → ExecOutcome)
    (t0 t1 : Nat) :
    ∀ (pre : List ResponseAction) (a : ResponseAction)
      (post : List ResponseAction) (k : Nat) (st : Store) (e : SecurityEvent),
      (∀ b ∈ pre, b.id ≠ a.id) → (∀ b ∈ post, b.id ≠ a.id) →
      lookupAction
        (processActions cfg impls t0 t1 (pre ++ a :: post) k st e).1 a.id =
        some (expectedRecord cfg (impls (k + pre.length)) t0 t1 a) := by
  intro pre
  induction pre with
  | nil =>
    intro a post k st e _ hpost
    rw [List.nil_append, List.length_nil, Nat.add_zero]
    cases hrv : a.requires_verification with
    | true =>
      rw [processActions_cons_true cfg impls t0 t1 a post k st e hrv]
      rw [processActions_frozen cfg impls t0 t1 post (k + 1) _ e a.id hpost]
      rw [lookupAction_putAction_self]
      rw [expectedRecord, if_pos hrv]
    | false =>
      rw [processActions_cons_false cfg impls t0 t1 a post k st e hrv]
      rw [processActions_frozen cfg impls t0 t1 post (k + 1) _ _ a.id hpost]
      rw [executeAction_store, lookupAction_putEvent]
      rw [expectedRecord, if_neg (by rw [hrv]; exact Bool.false_ne_true)]
      rw [show a.id =
        (ResponseAction.execute cfg.general.dry_run (impls k) t0 t1 a).1.id
        from (execute_id _ _ _ _ _).symm]
      exact lookupAction_putAction_self st _
  | cons b pre ih =>
    intro a post k st e hpre hpost
    have hpre2 : ∀ c ∈ pre, c.id ≠ a.id :=
      fun c hc => hpre c (List.mem_cons_of_mem b hc)
    have harith : k + 1 + pre.length = k + (b :: pre).length := by
      rw [List.length_cons]; omega
    rw [List.cons_append]
    cases hrv : b.requires_verification with
    | true =>
      rw [processActions_cons_true cfg impls t0 t1 b (pre ++ a :: post) k st e hrv]
      rw [ih a post (k + 1) (putAction st b) e hpre2 hpost, harith]
    | false =>
      rw [processActions_cons_false cfg impls t0 t1 b (pre ++ a :: post) k st e hrv]
      rw [ih a post (k + 1) _ _ hpre2 hpost, harith]

theorem processActions_lookup_mem (cfg : Config) (impls : Nat → ExecOutcome)
    (t0 t1 : Nat) :
    ∀ (acts : List ResponseAction) (k : Nat) (st : Store) (e : SecurityEvent)
      (a : ResponseAction), a ∈ acts →
      (acts.map (fun x => x.id)).Nodup →
      ∃ n, lookupAction (processActions cfg impls t0 t1 acts k st e).1 a.id =
        some (expectedRecord cfg (impls n) t0 t1 a) := by
  intro acts
  induction acts with
  | nil => intro k st e a ha; cases ha
  | cons b rest ih =>
    intro k st e a ha hnd
    rw [List.map_cons, List.nodup_cons] at hnd
    obtain ⟨hb, hrest⟩ := hnd
    have hfr : ∀ c ∈ rest, c.id ≠ b.id := by
      intro c hc heq
      exact hb (heq ▸ List.mem_map_of_mem (fun x => x.id) hc)
    rcases List.mem_cons.mp ha with h1 | h2
    · subst h1
      refine ⟨k, ?_⟩
      cases hrv : a.requires_verification with
      | true =>
        rw [processActions_cons_true cfg impls t0 t1 a rest k st e hrv]
        rw [processActions_frozen cfg impls t0 t1 rest (k + 1) _ e a.id hfr]
        rw [lookupAction_putAction_self, expectedRecord, if_pos hrv]
      | false =>
        rw [processActions_cons_false cfg impls t0 t1 a rest k st e hrv]
        rw [processActions_frozen cfg impls t0 t1 rest (k + 1) _ _ a.id hfr]
        rw [executeAction_store, lookupAction_putEvent]
        rw [expectedRecord, if_neg (by rw [hrv]; exact Bool.false_ne_true)]
        rw [show a.id =
          (ResponseAction.execute cfg.general.dry_run (impls k) t0 t1 a).1.id
          from (execute_id _ _ _ _ _).symm]
        exact lookupAction_putAction_self st _
    · cases hrv : b.requires_verification with
      | true =>
        rw [processActions_cons_true cfg impls t0 t1 b rest k st e hrv]
        exact ih (k + 1) (putAction st b) e a h2 hrest
      | false =>
        rw [processActions_cons_false cfg impls t0 t1 b rest k st e hrv]
        exact ih (k + 1) _ _ a h2 hrest

theorem autoNotPending_putAction (st : Store) (a : ResponseAction)
    (h : autoNotPending st)
    (ha : a.requires_verification = false → a.status ≠ "pending") :
    autoNotPending (putAction st a) := by
  intro p hp
  rcases mem_upsert st.actions a.id (storedOf a) p hp with h1 | h2
  · exact h p h1
  · rw [h2]
    exact ha

theorem processActions_autoNotPending (cfg : Config)
    (impls : Nat → ExecOutcome) (t0 t1 : Nat) :
    ∀ (acts : List ResponseAction) (k : Nat) (st : Store) (e : SecurityEvent),
      autoNotPending st →
      autoNotPending (processActions cfg impls t0 t1 acts k st e).1 := by
  intro acts
  induction acts with
  | nil => intro k st e h; exact h
  | cons a rest ih =>
    intro k st e h
    cases hrv : a.requires_verification with
    | true =>
      rw [processActions_cons_true cfg impls t0 t1 a rest k st e hrv]
      refine ih (k + 1) _ e (autoNotPending_putAction st a h ?_)
      intro hf
      rw [hrv] at hf
      exact absurd hf (by decide)
    | false =>
      rw [processActions_cons_false cfg impls t0 t1 a rest k st e hrv]
      refine ih (k + 1) _ _ ?_
      have hstep : autoNotPending
          (putAction st
            (ResponseAction.execute cfg.general.dry_run (impls k) t0 t1 a).1) := by
        refine autoNotPending_putAction st _ h ?_
        intro _
        rcases execute_status cfg.general.dry_run (impls k) t0 t1 a with h1 | h1 <;>
          rw [h1] <;> decide
      exact fun p hp => hstep p hp

theorem processActions_keepsSeverity (cfg : Config)
    (impls : Nat → ExecOutcome) (t0 t1 : Nat) :
    ∀ (acts : List ResponseAction) (k : Nat) (st : Store) (e : SecurityEvent)
      (sv : Int), e.severity = sv →
      (lookupEvent st e.id).map (fun d => d.severity) = some sv →
      (lookupEvent (processActions cfg impls t0 t1 acts k st e).1 e.id).map
        (fun d => d.severity) = some sv := by
  intro acts
  induction acts with
  | nil => intro k st e sv _ h; exact h
  | cons a rest ih =>
    intro k st e sv hsv h
    cases hrv : a.requires_verification with
    | true =>
      rw [processActions_cons_true cfg impls t0 t1 a rest k st e hrv]
      exact ih (k + 1) (putAction st a) e sv hsv h
    | false =>
      rw [processActions_cons_false cfg impls t0 t1 a rest k st e hrv]
      have hlook : lookupEvent (executeAction cfg (impls k) t0 t1 st e a).1
          (executeAction cfg (impls k) t0 t1 st e a).2.1.id =
          some (executeAction cfg (impls k) t0 t1 st e a).2.1.to_dict :=
        lookupEvent_putEvent_self _ _
      have := ih (k + 1) (executeAction cfg (impls k) t0 t1 st e a).1
        (executeAction cfg (impls k) t0 t1 st e a).2.1 sv hsv
        (by rw [hlook]; exact congrArg some hsv)
      exact this

/- ### Verification path lemmas -/

theorem nodup_map_split (pre post : List ResponseAction) (a : ResponseAction)
    (h : ((pre ++ a :: post).map (fun x => x.id)).Nodup) :
    (∀ b ∈ pre, b.id ≠ a.id) ∧ (∀ b ∈ post, b.id ≠ a.id) := by
  rw [List.map_append, List.nodup_append] at h
  obtain ⟨_, h2, h3⟩ := h
  rw [List.map_cons, List.nodup_cons] at h2
  constructor
  · intro b hb heq
    exact h3 (List.mem_map_of_mem (fun x => x.id) hb)
      (by rw [heq, List.map_cons]; exact List.mem_cons_self a.id _)
  · intro b hb heq
    exact h2.1 (heq ▸ List.mem_map_of_mem (fun x => x.id) hb)

theorem verifyAction_reject (cfg : Config) (rn : String → Option String)
    (impl : ExecOutcome) (t0 t1 : Nat) (st : Store) (aid user : String)
    (rec0 : StoredAction) (ed : EventDict) (a0 : ResponseAction)
    (hrec : lookupAction st aid = some rec0)
    (hev : lookupEvent st rec0.event_id = some ed)
    (hrecon : reconstructAction (SecurityEvent.from_dict ed) cfg rn
      rec0.action.name = Reconstruct.ok a0) :
    verifyAction cfg rn impl t0 t1 st aid false user =
      (putEvent
        (putAction st
          { a0 with
            id := aid, status := "rejected",
            verification_status := "rejected" })
        { SecurityEvent.from_dict ed with
          response_actions := (SecurityEvent.from_dict ed).response_actions ++
            [{ action_id := aid, name := a0.name, status := "rejected",
               result := some "Action rejected by user" }] },
       VerifyOutcome.returned true) := by
  simp only [verifyAction, hrec, hev, hrecon]
  rfl

/- ### Claim theorems -/

/-- Claim C1, counterexample: with the default configuration, severity 80
exceeds the auto-block threshold 70 and the target `"evil-host"` is on no
protected list, yet `requires_verification` is `true` — the biconditional
`requires_verification = (severity ≤ threshold)` fails for a target that
does not parse as an IP address. -/
theorem c1_counterexample :
    (BlockIPAction.mk0 "a1"
      (SecurityEvent.mk0 "e1" "suspicious_ip" "fw" [] 80 0)
      defaultConfig "evil-host" none).requires_verification = true ∧
    decide ((80 : Int) ≤ defaultConfig.network.max_auto_block_score) = false ∧
    defaultConfig.network.critical_hosts.contains "evil-host" = false ∧
    defaultConfig.network.trusted_ips.contains "evil-host" = false := by
  decide

/-- Claim C1, amended: for each action kind, `requires_verification` is the
threshold comparison `severity ≤ auto_threshold` or-ed with the protected
override, where for `BlockIPAction` the override also fires when the
target (or a configured critical-host / trusted-range entry) fails to
parse as an IP address; `RotateCredentialsAction` and
`ExecutePlaybookAction` have no override. Because the override enters as a
disjunct, it can only turn an auto decision into a verify decision, never
the reverse. -/
theorem c1_policy (cfg : Config) (e : SecurityEvent) (i1 i2 i3 i4 : String)
    (ip : String) (dur : Option Int) (cid : String) (nm : Option String)
    (ct idf : String) (md : Option String) (pb : String)
    (ps : List (String × String)) :
    ((BlockIPAction.mk0 i1 e cfg ip dur).requires_verification =
      (decide (e.severity ≤ cfg.network.max_auto_block_score) ||
        blockOverride cfg ip)) ∧
    ((IsolateContainerAction.mk0 i2 e cfg cid nm).requires_verification =
      (decide (e.severity ≤ cfg.container.auto_isolate_score) ||
        isolateProtected cfg nm)) ∧
    ((RotateCredentialsAction.mk0 i3 e cfg ct idf md).requires_verification =
      decide (e.severity ≤ cfg.credentials.auto_rotate_score)) ∧
    ((ExecutePlaybookAction.mk0 i4 e cfg pb ps).requires_verification =
      decide (e.severity ≤ cfg.playbooks.auto_execute_score)) := by
  refine ⟨blockIPRequiresVerification_eq cfg e.severity ip, ?_, rfl, rfl⟩
  rw [show (IsolateContainerAction.mk0 i2 e cfg cid nm).requires_verification =
    (if isolateProtected cfg nm then true
     else decide (e.severity ≤ cfg.container.auto_isolate_score)) from rfl]
  rcases Bool.eq_false_or_eq_true (isolateProtected cfg nm) with hh | hh <;>
    rw [hh] <;> simp

/-- Claim C3, counterexample: a caller-supplied severity of 150 is stored
as-is on the event and persisted as-is by `handle_security_event`; no
clamping or validation into `[0, 100]` happens anywhere. -/
theorem c3_counterexample :
    (SecurityEvent.mk0 "e3" "suspicious_ip" "fw" [] 150 0).severity = 150 ∧
    ¬ ((SecurityEvent.mk0 "e3" "suspicious_ip" "fw" [] 150 0).severity ≤ 100) ∧
    ((lookupEvent
        (handleSecurityEvent defaultConfig (fun _ => ExecOutcome.ok "r") 0 1
          (fun _ => "uuid") (fun _ => none) emptyStore
          (SecurityEvent.mk0 "e3" "suspicious_ip" "fw" [] 150 0)).1
        "e3").map (fun d => d.severity)) = some 150 := by
  decide

/-- Claim C3, amended: the severity is stored on the event and persisted
through `handle_security_event` exactly as supplied, with no clamping or
validation; the `[0, 100]` range is only a documented convention. -/
theorem c3_severity_stored_unclamped (cfg : Config)
    (impls : Nat → ExecOutcome) (t0 t1 : Nat) (ids : Nat → String)
    (rn : String → Option String) (st : Store) (id ty src : String)
    (details : List (String × String)) (sev : Int) (ts : Nat) :
    (lookupEvent
      (handleSecurityEvent cfg impls t0 t1 ids rn st
        (SecurityEvent.mk0 id ty src details sev ts)).1 id).map
      (fun d => d.severity) = some sev := by
  have h0 : (lookupEvent
      (putEvent st (SecurityEvent.mk0 id ty src details sev ts))
      (SecurityEvent.mk0 id ty src details sev ts).id).map
      (fun d => d.severity) = some sev := by
    rw [lookupEvent_putEvent_self]
    rfl
  exact processActions_keepsSeverity cfg impls t0 t1
    (determineResponseActions cfg (SecurityEvent.mk0 id ty src details sev ts)
      ids rn) 0
    (putEvent st (SecurityEvent.mk0 id ty src details sev ts))
    (SecurityEvent.mk0 id ty src details sev ts) sev rfl h0

/-- Claim C10: a `BlockIPAction` whose target does not parse as an IP
address always requires verification — the `except ValueError` fallback in
the constructor forces the flag regardless of severity and threshold. -/
theorem c10_unparseable_ip (cfg : Config) (e : SecurityEvent)
    (id ip : String) (dur : Option Int) (h : parseIPv4 ip = none) :
    (BlockIPAction.mk0 id e cfg ip dur).requires_verification = true := by
  show blockIPRequiresVerification cfg e.severity ip = true
  rw [blockIPRequiresVerification, h]

/-- Witness for C10 at the unparseable target `"not-an-ip"` with severity
99, far above every threshold. -/
theorem c10_witness :
    parseIPv4 "not-an-ip" = none ∧
    (BlockIPAction.mk0 "a10"
      (SecurityEvent.mk0 "e10" "suspicious_ip" "fw" [] 99 0)
      defaultConfig "not-an-ip" none).requires_verification = true :=
  ⟨by decide,
    c10_unparseable_ip defaultConfig
      (SecurityEvent.mk0 "e10" "suspicious_ip" "fw" [] 99 0) "a10"
      "not-an-ip" none (by decide)⟩

/-- Claim C2: `verify_action` performs no status check at all. Approving
the already-`completed` record `act-done` returns success and runs the
execute path again: the persisted record afterwards carries the fresh
execution result and start time. No `InvalidState` failure exists on this
path (the method can only return a boolean or crash). -/
theorem c2_terminal_action_reexecuted :
    (verifyAction defaultConfig (fun _ => none)
      (ExecOutcome.ok "re-executed block") 10 11 storeWithCompleted
      "act-done" true "operator").2 = VerifyOutcome.returned true ∧
    ((lookupAction
        (verifyAction defaultConfig (fun _ => none)
          (ExecOutcome.ok "re-executed block") 10 11 storeWithCompleted
          "act-done" true "operator").1 "act-done").map
      (fun r => (r.action.status, r.action.result, r.action.start_time))) =
      some ("completed", some "re-executed block", some 10) := by
  decide

/-- Claim C4, counterexample: an event of the unrecognized kind
`"zzz-unknown-kind"` is accepted without any error: the policy engine
derives no actions, `handle_security_event` persists the event and returns
its id as on any successful submission. There is no `UnknownEventKind`
failure anywhere in the pipeline. -/
theorem c4_counterexample :
    determineResponseActions defaultConfig
      (SecurityEvent.mk0 "e4" "zzz-unknown-kind" "detector" [] 50 0)
      (fun _ => "uuid") (fun _ => none) = [] ∧
    handleSecurityEvent defaultConfig (fun _ => ExecOutcome.ok "r") 0 1
      (fun _ => "uuid") (fun _ => none) emptyStore
      (SecurityEvent.mk0 "e4" "zzz-unknown-kind" "detector" [] 50 0) =
      (putEvent emptyStore
        (SecurityEvent.mk0 "e4" "zzz-unknown-kind" "detector" [] 50 0),
       "e4") ∧
    lookupEvent
      (putEvent emptyStore
        (SecurityEvent.mk0 "e4" "zzz-unknown-kind" "detector" [] 50 0))
      "e4" =
      some (SecurityEvent.mk0 "e4" "zzz-unknown-kind" "detector" [] 50 0).to_dict := by
  decide

/-- Claim C4, amended: an event whose kind is outside the mapped
categories (and whose details name no available `suggested_playbook`) is
accepted silently: the derived action list is empty, the event is
persisted, and the call returns the event id — no failure of any kind. -/
theorem c4_unknown_kind_accepted (cfg : Config) (impls : Nat → ExecOutcome)
    (t0 t1 : Nat) (ids : Nat → String) (rn : String → Option String)
    (st : Store) (e : SecurityEvent)
    (hty : e.event_type ∉ knownEventTypes)
    (hpb : ∀ pb, getTruthy e.details "suggested_playbook" = some pb →
      cfg.playbooks.available.contains pb = false) :
    determineResponseActions cfg e ids rn = [] ∧
    handleSecurityEvent cfg impls t0 t1 ids rn st e = (putEvent st e, e.id) ∧
    lookupEvent (putEvent st e) e.id = some e.to_dict := by
  simp only [knownEventTypes, List.mem_cons, List.not_mem_nil, or_false,
    not_or] at hty
  obtain ⟨h1, h2, h3, h4, h5, h6⟩ := hty
  have hdet : determineResponseActions cfg e ids rn = [] := by
    rw [determineResponseActions]
    cases hs : getTruthy e.details "suggested_playbook" with
    | none => simp [determineRaw, h1, h2, h3, h4, h5, h6, hs, assignIds]
    | some pb =>
      have hnm : pb ∉ cfg.playbooks.available := by
        simpa using hpb pb hs
      simp [determineRaw, h1, h2, h3, h4, h5, h6, hs, hnm, assignIds]
  refine ⟨hdet, ?_, lookupEvent_putEvent_self st e⟩
  simp only [handleSecurityEvent, hdet, processActions_nil]

/-- Witness for C4 at a concrete bogus event kind. -/
theorem c4_witness :
    (SecurityEvent.mk0 "e4w" "totally-bogus" "detector" [] 50 0).event_type ∉
      knownEventTypes ∧
    (determineResponseActions defaultConfig
      (SecurityEvent.mk0 "e4w" "totally-bogus" "detector" [] 50 0)
      (fun _ => "uuid") (fun _ => none) = [] ∧
    handleSecurityEvent defaultConfig (fun _ => ExecOutcome.ok "r") 0 1
      (fun _ => "uuid") (fun _ => none) emptyStore
      (SecurityEvent.mk0 "e4w" "totally-bogus" "detector" [] 50 0) =
      (putEvent emptyStore
        (SecurityEvent.mk0 "e4w" "totally-bogus" "detector" [] 50 0),
       "e4w") ∧
    lookupEvent
      (putEvent emptyStore
        (SecurityEvent.mk0 "e4w" "totally-bogus" "detector" [] 50 0))
      "e4w" =
      some (SecurityEvent.mk0 "e4w" "totally-bogus" "detector" [] 50 0).to_dict) :=
  ⟨by decide,
    c4_unknown_kind_accepted defaultConfig (fun _ => ExecOutcome.ok "r") 0 1
      (fun _ => "uuid") (fun _ => none) emptyStore
      (SecurityEvent.mk0 "e4w" "totally-bogus" "detector" [] 50 0)
      (by decide)
      (fun pb h => by simp [getTruthy, lookupRec] at h)⟩

/-- Claim C5: the base-class `to_dict` (which every variant inherits)
drops the variant parameters — an action whose `ip_address` is replaced by
`"placeholder"` serializes to the identical dictionary — and the
reconstruction `verify_action` performs yields an action whose parameters
are the literal `"placeholder"`, not the original target. The Event
round-trip, by contrast, is field-for-field faithful. -/
theorem c5_action_roundtrip_loses_params :
    ResponseAction.to_dict
      { c5Action with params := ActionParams.blockIP "placeholder" 3600 } =
      ResponseAction.to_dict c5Action ∧
    c5Action.params = ActionParams.blockIP "203.0.113.42" 3600 ∧
    (match reconstructAction c5Event defaultConfig (fun _ => none)
        "BlockIPAction" with
      | Reconstruct.ok a2 => a2.params
      | _ => c5Action.params) = ActionParams.blockIP "placeholder" 3600 ∧
    SecurityEvent.from_dict (SecurityEvent.to_dict c5Event) = c5Event := by
  decide

/-- Claim C6: every action saved by the `handle_security_event` loop with
`requires_verification = false` has already executed, so its persisted
status is terminal; if the store satisfies the no-auto-pending invariant
before the call it satisfies it afterwards — no record ever combines
`requires_verification = false` with `pending` status. -/
theorem c6_auto_never_pending (cfg : Config) (impls : Nat → ExecOutcome)
    (t0 t1 : Nat) (ids : Nat → String) (rn : String → Option String)
    (st : Store) (e : SecurityEvent) (h : autoNotPending st) :
    autoNotPending (handleSecurityEvent cfg impls t0 t1 ids rn st e).1 := by
  have h1 : autoNotPending (putEvent st e) := fun p hp => h p hp
  exact processActions_autoNotPending cfg impls t0 t1
    (determineResponseActions cfg e ids rn) 0 (putEvent st e) e h1

/-- Witness for C6: submitting the suspicious-ip event against an empty
store keeps the no-auto-pending invariant. -/
theorem c6_witness :
    autoNotPending emptyStore ∧
    autoNotPending
      (handleSecurityEvent defaultConfig (fun _ => ExecOutcome.ok "r") 0 1
        (fun _ => "uuid") (fun _ => none) emptyStore evBlock).1 :=
  have h0 : autoNotPending emptyStore :=
    fun p hp => absurd hp (List.not_mem_nil p)
  ⟨h0,
    c6_auto_never_pending defaultConfig (fun _ => ExecOutcome.ok "r") 0 1
      (fun _ => "uuid") (fun _ => none) emptyStore evBlock h0⟩

/-- Claim C7: when the `_execute_impl` of the action at position
`pre.length` raises, the exception is caught inside `execute`: that action
is persisted as `failed` with the message in its `error` field, and every
sibling action of the same event is still processed — saved pending if it
requires verification, saved in a terminal state otherwise. -/
theorem c7_sibling_isolation (cfg : Config) (impls : Nat → ExecOutcome)
    (t0 t1 : Nat) (st : Store) (e : SecurityEvent)
    (pre post : List ResponseAction) (a : ResponseAction) (m : String)
    (hdry : cfg.general.dry_run = false)
    (hnodup : ((pre ++ a :: post).map (fun x => x.id)).Nodup)
    (hrv : a.requires_verification = false)
    (hexn : impls pre.length = ExecOutcome.exn m) :
    (∃ r, lookupAction
        (processActions cfg impls t0 t1 (pre ++ a :: post) 0 st e).1 a.id =
        some r ∧ r.action.status = "failed" ∧ r.action.error = some m) ∧
    ∀ b ∈ pre ++ post, ∃ r,
      lookupAction
        (processActions cfg impls t0 t1 (pre ++ a :: post) 0 st e).1 b.id =
        some r ∧
      (b.requires_verification = true → r.action.status = b.status) ∧
      (b.requires_verification = false →
        r.action.status = "completed" ∨ r.action.status = "failed") := by
  obtain ⟨hpre, hpost⟩ := nodup_map_split pre post a hnodup
  constructor
  · refine ⟨expectedRecord cfg (impls (0 + pre.length)) t0 t1 a,
      processActions_at cfg impls t0 t1 pre a post 0 st e hpre hpost, ?_, ?_⟩
    · rw [Nat.zero_add, hexn, expectedRecord,
        if_neg (by rw [hrv]; exact Bool.false_ne_true), hdry]
      rfl
    · rw [Nat.zero_add, hexn, expectedRecord,
        if_neg (by rw [hrv]; exact Bool.false_ne_true), hdry]
      rfl
  · intro b hb
    have hmem : b ∈ pre ++ a :: post := by
      rcases List.mem_append.mp hb with h1 | h2
      · exact List.mem_append.mpr (Or.inl h1)
      · exact List.mem_append.mpr (Or.inr (List.mem_cons_of_mem a h2))
    obtain ⟨n, hn⟩ := processActions_lookup_mem cfg impls t0 t1
      (pre ++ a :: post) 0 st e b hmem hnodup
    refine ⟨expectedRecord cfg (impls n) t0 t1 b, hn, ?_, ?_⟩
    · intro hbv
      rw [expectedRecord, if_pos hbv]
      rfl
    · intro hbv
      rw [expectedRecord, if_neg (by rw [hbv]; exact Bool.false_ne_true)]
      exact execute_status cfg.general.dry_run (impls n) t0 t1 b

/-- Witness for C7: two auto-executing forensic captures derived from one
event; the first one's implementation raises `"boom"`, the second still
runs. -/
theorem c7_witness :
    defaultConfig.general.dry_run = false ∧
    ((([] ++ c7Fail :: [c7Sibling]).map
        (fun x : ResponseAction => x.id)).Nodup ∧
      c7Fail.requires_verification = false ∧
      (fun n => if n = 0 then ExecOutcome.exn "boom" else ExecOutcome.ok "done")
        (List.length ([] : List ResponseAction)) = ExecOutcome.exn "boom") ∧
    ((∃ r, lookupAction
        (processActions defaultConfig
          (fun n => if n = 0 then ExecOutcome.exn "boom" else ExecOutcome.ok "done")
          0 1 ([] ++ c7Fail :: [c7Sibling]) 0 emptyStore evBlock).1
        c7Fail.id =
        some r ∧ r.action.status = "failed" ∧ r.action.error = some "boom") ∧
    ∀ b ∈ ([] : List ResponseAction) ++ [c7Sibling], ∃ r,
      lookupAction
        (processActions defaultConfig
          (fun n => if n = 0 then ExecOutcome.exn "boom" else ExecOutcome.ok "done")
          0 1 ([] ++ c7Fail :: [c7Sibling]) 0 emptyStore evBlock).1
        b.id =
        some r ∧
      (b.requires_verification = true → r.action.status = b.status) ∧
      (b.requires_verification = false →
        r.action.status = "completed" ∨ r.action.status = "failed")) :=
  ⟨rfl, ⟨by decide, rfl, rfl⟩,
    c7_sibling_isolation defaultConfig
      (fun n => if n = 0 then ExecOutcome.exn "boom" else ExecOutcome.ok "done")
      0 1 emptyStore evBlock [] [c7Sibling] c7Fail "boom" rfl (by decide)
      rfl rfl⟩

/-- Claim C8, counterexample: rejecting the pending
`RotateCredentialsAction` record crashes with an uncaught `TypeError`
(its constructor needs two positional parameters after the config, but
`verify_action` reconstructs every class with the single argument
`"placeholder"`): the store is untouched and the action stays `pending`
instead of transitioning to `rejected`. -/
theorem c8_counterexample :
    (verifyAction defaultConfig (fun _ => none) (ExecOutcome.ok "x") 0 1
      storeWithPendingRotate "act-rot" false "operator").2 =
      VerifyOutcome.crashed "TypeError" ∧
    (verifyAction defaultConfig (fun _ => none) (ExecOutcome.ok "x") 0 1
      storeWithPendingRotate "act-rot" false "operator").1 =
      storeWithPendingRotate ∧
    (lookupAction storeWithPendingRotate "act-rot").map
      (fun r => r.action.status) = some "pending" := by
  decide

/-- Shared core of the amended claim C8: once the stored class name
reconstructs successfully, rejecting persists the action as `rejected`,
appends exactly one rejection entry to the owning event's log, and never
consults the execute implementation. -/
theorem c8_core (cfg : Config) (rn : String → Option String)
    (impl impl2 : ExecOutcome) (t0 t1 : Nat) (st : Store)
    (aid user : String) (rec0 : StoredAction) (ed : EventDict)
    (a0 : ResponseAction)
    (hrec : lookupAction st aid = some rec0)
    (hev : lookupEvent st rec0.event_id = some ed)
    (hid : ed.id = rec0.event_id)
    (hrecon : reconstructAction (SecurityEvent.from_dict ed) cfg rn
      rec0.action.name = Reconstruct.ok a0)
    (hnm : a0.name = rec0.action.name) :
    (verifyAction cfg rn impl t0 t1 st aid false user).2 =
      VerifyOutcome.returned true ∧
    verifyAction cfg rn impl2 t0 t1 st aid false user =
      verifyAction cfg rn impl t0 t1 st aid false user ∧
    (∃ r2, lookupAction (verifyAction cfg rn impl t0 t1 st aid false user).1
        aid = some r2 ∧ r2.action.status = "rejected") ∧
    (∃ ed2, lookupEvent (verifyAction cfg rn impl t0 t1 st aid false user).1
        rec0.event_id = some ed2 ∧
      ed2.response_actions = ed.response_actions ++
        [{ action_id := aid, name := rec0.action.name, status := "rejected",
           result := some "Action rejected by user" }]) := by
  have hL := verifyAction_reject cfg rn impl t0 t1 st aid user rec0 ed a0
    hrec hev hrecon
  have hL2 := verifyAction_reject cfg rn impl2 t0 t1 st aid user rec0 ed a0
    hrec hev hrecon
  refine ⟨by rw [hL], by rw [hL2, hL], ?_, ?_⟩
  · rw [hL]
    rw [show (putEvent
        (putAction st
          { a0 with
            id := aid, status := "rejected",
            verification_status := "rejected" })
        { SecurityEvent.from_dict ed with
          response_actions := (SecurityEvent.from_dict ed).response_actions ++
            [{ action_id := aid, name := a0.name, status := "rejected",
               result := some "Action rejected by user" }] },
       VerifyOutcome.returned true).1 =
      putEvent
        (putAction st
          { a0 with
            id := aid, status := "rejected",
            verification_status := "rejected" })
        { SecurityEvent.from_dict ed with
          response_actions := (SecurityEvent.from_dict ed).response_actions ++
            [{ action_id := aid, name := a0.name, status := "rejected",
               result := some "Action rejected by user" }] } from rfl]
    rw [lookupAction_putEvent]
    exact ⟨_, lookupAction_putAction_self st _, rfl⟩
  · rw [hL, ← hnm, ← hid]
    exact ⟨_, lookupEvent_putEvent_self _ _, rfl⟩

/-- Claim C8, amended: for every pending action whose variant can be
reconstructed by `verify_action`'s dynamic re-dispatch — all classes
except `RotateCredentialsAction`, whose reconstruction raises an uncaught
`TypeError` — `verify(action_id, approve=false)` persists the action as
`rejected`, appends exactly one rejection entry to the owning event's
`response_actions`, and never invokes `execute` (the outcome does not
depend on the execute implementation at all). -/
theorem c8_reject (cfg : Config) (rn : String → Option String)
    (impl impl2 : ExecOutcome) (t0 t1 : Nat) (st : Store)
    (aid user : String) (rec0 : StoredAction) (ed : EventDict)
    (hrec : lookupAction st aid = some rec0)
    (hev : lookupEvent st rec0.event_id = some ed)
    (hid : ed.id = rec0.event_id)
    (hpend : rec0.action.status = "pending")
    (hname : rec0.action.name ∈ ["BlockIPAction", "IsolateContainerAction",
      "ForensicCaptureAction", "ExecutePlaybookAction"]) :
    (verifyAction cfg rn impl t0 t1 st aid false user).2 =
      VerifyOutcome.returned true ∧
    verifyAction cfg rn impl2 t0 t1 st aid false user =
      verifyAction cfg rn impl t0 t1 st aid false user ∧
    (∃ r2, lookupAction (verifyAction cfg rn impl t0 t1 st aid false user).1
        aid = some r2 ∧ r2.action.status = "rejected") ∧
    (∃ ed2, lookupEvent (verifyAction cfg rn impl t0 t1 st aid false user).1
        rec0.event_id = some ed2 ∧
      ed2.response_actions = ed.response_actions ++
        [{ action_id := aid, name := rec0.action.name, status := "rejected",
           result := some "Action rejected by user" }]) := by
  simp only [List.mem_cons, List.not_mem_nil, or_false] at hname
  rcases hname with hn | hn | hn | hn
  · exact c8_core cfg rn impl impl2 t0 t1 st aid user rec0 ed
      (BlockIPAction.mk0 "fresh-uuid" (SecurityEvent.from_dict ed) cfg
        "placeholder" none)
      hrec hev hid (by rw [hn]; rfl) (by rw [hn]; rfl)
  · exact c8_core cfg rn impl impl2 t0 t1 st aid user rec0 ed
      (IsolateContainerAction.mk0 "fresh-uuid" (SecurityEvent.from_dict ed)
        cfg "placeholder" (rn "placeholder"))
      hrec hev hid (by rw [hn]; rfl) (by rw [hn]; rfl)
  · exact c8_core cfg rn impl impl2 t0 t1 st aid user rec0 ed
      (ForensicCaptureAction.mk0 "fresh-uuid" (SecurityEvent.from_dict ed)
        cfg "placeholder" none)
      hrec hev hid (by rw [hn]; rfl) (by rw [hn]; rfl)
  · exact c8_core cfg rn impl impl2 t0 t1 st aid user rec0 ed
      (ExecutePlaybookAction.mk0 "fresh-uuid" (SecurityEvent.from_dict ed)
        cfg "placeholder" [])
      hrec hev hid (by rw [hn]; rfl) (by rw [hn]; rfl)

/-- Witness for the amended C8 at the pending `BlockIPAction` record. -/
theorem c8_witness :
    lookupAction storeWithPendingBlock "act-pend" = some pendingBlockRecord ∧
    lookupEvent storeWithPendingBlock pendingBlockRecord.event_id =
      some evBlock.to_dict ∧
    evBlock.to_dict.id = pendingBlockRecord.event_id ∧
    pendingBlockRecord.action.status = "pending" ∧
    pendingBlockRecord.action.name ∈ ["BlockIPAction",
      "IsolateContainerAction", "ForensicCaptureAction",
      "ExecutePlaybookAction"] ∧
    ((verifyAction defaultConfig (fun _ => none) (ExecOutcome.ok "x") 0 1
        storeWithPendingBlock "act-pend" false "operator").2 =
      VerifyOutcome.returned true ∧
    verifyAction defaultConfig (fun _ => none) (ExecOutcome.exn "boom") 0 1
        storeWithPendingBlock "act-pend" false "operator" =
      verifyAction defaultConfig (fun _ => none) (ExecOutcome.ok "x") 0 1
        storeWithPendingBlock "act-pend" false "operator" ∧
    (∃ r2, lookupAction
        (verifyAction defaultConfig (fun _ => none) (ExecOutcome.ok "x") 0 1
          storeWithPendingBlock "act-pend" false "operator").1 "act-pend" =
        some r2 ∧ r2.action.status = "rejected") ∧
    (∃ ed2, lookupEvent
        (verifyAction defaultConfig (fun _ => none) (ExecOutcome.ok "x") 0 1
          storeWithPendingBlock "act-pend" false "operator").1
        pendingBlockRecord.event_id = some ed2 ∧
      ed2.response_actions = evBlock.to_dict.response_actions ++
        [{ action_id := "act-pend", name := pendingBlockRecord.action.name,
           status := "rejected",
           result := some "Action rejected by user" }])) :=
  ⟨by decide, by decide, by decide, by decide, by decide,
    c8_reject defaultConfig (fun _ => none) (ExecOutcome.ok "x")
      (ExecOutcome.exn "boom") 0 1 storeWithPendingBlock "act-pend"
      "operator" pendingBlockRecord evBlock.to_dict (by decide) (by decide)
      (by decide) (by decide) (by decide)⟩

/-- Claim C9: in dry-run mode `execute` never consults the variant
implementation (the outcome is the same for any `_execute_impl`), the
action still passes through `in_progress` and ends `completed` with the
synthetic `"Skipped (dry run mode)"` result, and `_execute_action`
produces exactly the store a real execution returning that same synthetic
result would produce — the persistence path is identical. -/
theorem c9_dry_run (cfg : Config) (impl impl2 : ExecOutcome) (t0 t1 : Nat)
    (a : ResponseAction) (st : Store) (e : SecurityEvent)
    (hdry : cfg.general.dry_run = true) :
    ResponseAction.execute true impl t0 t1 a =
      ResponseAction.execute true impl2 t0 t1 a ∧
    (executeStart t0 a).status = "in_progress" ∧
    (ResponseAction.execute true impl t0 t1 a).1 =
      { executeStart t0 a with
        status := "completed", result := some "Skipped (dry run mode)",
        end_time := some t1 } ∧
    executeAction cfg impl t0 t1 st e a =
      executeAction { cfg with general := { dry_run := false } }
        (ExecOutcome.ok "Skipped (dry run mode)") t0 t1 st e a := by
  refine ⟨rfl, rfl, rfl, ?_⟩
  rw [executeAction, executeAction, hdry]
  rfl

/-- Witness for C9: a dry-run configuration, two different
implementations, and a concrete action. -/
theorem c9_witness :
    ({ defaultConfig with
        general := { dry_run := true } } : Config).general.dry_run = true ∧
    (ResponseAction.execute true (ExecOutcome.ok "real") 3 4 c7Fail =
      ResponseAction.execute true (ExecOutcome.exn "boom") 3 4 c7Fail ∧
    (executeStart 3 c7Fail).status = "in_progress" ∧
    (ResponseAction.execute true (ExecOutcome.ok "real") 3 4 c7Fail).1 =
      { executeStart 3 c7Fail with
        status := "completed", result := some "Skipped (dry run mode)",
        end_time := some 4 } ∧
    executeAction { defaultConfig with general := { dry_run := true } }
        (ExecOutcome.ok "real") 3 4 emptyStore evBlock c7Fail =
      executeAction { defaultConfig with general := { dry_run := false } }
        (ExecOutcome.ok "Skipped (dry run mode)") 3 4 emptyStore evBlock
        c7Fail) :=
  ⟨rfl,
    c9_dry_run { defaultConfig with general := { dry_run := true } }
      (ExecOutcome.ok "real") (ExecOutcome.exn "boom") 3 4 c7Fail emptyStore
      evBlock rfl⟩

end SecurityResponse
